import Mathlib

/-!
Verification development for the gateway controller, the transformer
config watcher and the webhook route table of this repository.

The Go source is shallowly embedded: every remote (Kubernetes API) call
is mediated by an explicit environment of result oracles, and a trace of
the remote operations performed is returned alongside the final state.
Helpers that live in the `common` package (which is not part of the
sources here) are modelled from the spec and marked as such.
-/

namespace ArgoEvents

/-- Gateway lifecycle phase (`v1alpha1.NodePhase`, a string type in Go).
The three declared constants are modelled as constructors; any other
string value is kept representable via `unknownPhase` because `operate`
panics on it. -/
inductive NodePhase where
  | NodePhaseNew
  | NodePhaseRunning
  | NodePhaseError
  | unknownPhase (s : String)
deriving DecidableEq, Repr

/-- Gateway dispatch mechanism (`v1alpha1.GatewayType`, a string type in
Go). The three declared constants are constructors; any other string is
`otherMechanism`, which is exactly what `validate`'s `default` branch
matches. -/
inductive DispatchMechanism where
  | HTTPGateway
  | NATSGateway
  | KafkaGateway
  | otherMechanism (s : String)
deriving DecidableEq, Repr

/-- Errors surfaced by the remote resource client. `conflict` is the
stale-version (optimistic-concurrency) class; `errWaitTimeout` is the
sentinel returned by the backoff helper when its steps are exhausted. -/
inductive KubeError where
  | conflict
  | notFound
  | other (msg : String)
  | errWaitTimeout
deriving DecidableEq, Repr

/-- Modelled from the spec: `common.IsRetryableKubeAPIError`, the external
predicate classifying an update failure as a retryable stale-version /
conflict-class error. -/
def IsRetryableKubeAPIError : KubeError → Bool
  | .conflict => true
  | _ => false

/-- Go `strings.Split(s, ",")` at the character level: splitting the empty
string yields one empty piece, and a separator at either end yields an
empty piece there. -/
def splitOnCommaChars : List Char → List (List Char)
  | [] => [[]]
  | c :: cs =>
    if c = ',' then [] :: splitOnCommaChars cs
    else
      match splitOnCommaChars cs with
      | r :: rs => (c :: r) :: rs
      | [] => [[c]]

/-- Go `strings.Join(xs, ",")` at the character level. -/
def joinCommaChars : List (List Char) → List Char
  | [] => []
  | [x] => x
  | x :: y :: ys => x ++ ',' :: joinCommaChars (y :: ys)

/-- Embedding of Go `strings.Split(s, ",")` as used by `updateConfig`. -/
def goSplitComma (s : String) : List String :=
  (splitOnCommaChars s.data).map (fun cs => String.mk cs)

/-- Embedding of Go `strings.Join(xs, ",")` as used by `operate` when it
serializes the sensor list into the ConfigMap payload. -/
def goJoinComma (xs : List String) : String :=
  String.mk (joinCommaChars (xs.map String.data))

/-- Watchers associated with a gateway (`Spec.Watchers`, a nullable
struct holding two nullable lists; only nil-ness is inspected by the
sources, so the element types are kept as plain names). -/
structure GatewayNotificationWatchers where
  gateways : Option (List String)
  sensors : Option (List String)
deriving DecidableEq, Repr

/-- The requested network exposure (`Spec.Service`). -/
structure GatewayServiceSpec where
  port : Int
  targetPort : Int
  serviceType : String
deriving DecidableEq, Repr

/-- `Spec` of a Gateway. `deploySpec` is only ever checked for nil-ness by
the sources, so its content is `Unit`. -/
structure GatewaySpec where
  image : String
  imagePullPolicy : String
  serviceAccountName : String
  service : GatewayServiceSpec
  gatewayType : String
  version : String
  sensors : List String
  dispatchMechanism : DispatchMechanism
  deploySpec : Option Unit
  watchers : Option GatewayNotificationWatchers
deriving DecidableEq, Repr

/-- A Gateway resource: identity, spec and observed status. -/
structure Gateway where
  name : String
  namespace_ : String
  spec : GatewaySpec
  status : NodePhase
deriving DecidableEq, Repr

/-- Embedding of `validate` (controllers/gateway/validate.go): required
fields, then the dispatch-mechanism switch whose `default` branch rejects
unknown mechanisms. -/
def validate (gw : Gateway) : Except String Unit :=
  if gw.spec.deploySpec.isNone then
    .error "gateway deploy specification is not specified"
  else if gw.spec.gatewayType = "" then
    .error "gateway type is not specified"
  else if gw.spec.version = "" then
    .error "gateway version is not specified"
  else
    match gw.spec.dispatchMechanism with
    | .HTTPGateway =>
      match gw.spec.watchers with
      | none => .error "no associated watchers with gateway"
      | some w =>
        if w.gateways = none ∧ w.sensors = none then
          .error "no associated watchers with gateway"
        else .ok ()
    | .NATSGateway => .ok ()
    | .KafkaGateway => .ok ()
    | .otherMechanism _ => .error "unknown gateway type"

/-- Modelled from the spec: the four required keys of the transformer
ConfigMap payload (`common.EventSource` and friends, declared in the
`common` package which is not among the sources). Only their mutual
distinctness matters to the code under verification. -/
def EventSource : String := "eventSource"

/-- Modelled from the spec: the event-type payload key. -/
def EventType : String := "eventType"

/-- Modelled from the spec: the event-type-version payload key. -/
def EventTypeVersion : String := "eventTypeVersion"

/-- Modelled from the spec: the sensor-list payload key. -/
def SensorList : String := "sensorList"

/-- Modelled from the spec: `common.DefaultGatewayTransformerConfigMapName`,
which formulates the name of the transformer ConfigMap owned by a
gateway from the gateway's name. -/
def DefaultGatewayTransformerConfigMapName (gatewayName : String) : String :=
  gatewayName ++ "-gateway-transformer-configmap"

/-- Modelled from the spec: `common.DefaultGatewayDeploymentName`, which
formulates the name of the workload deployment owned by a gateway from
the gateway's name (a derived name, distinct from the raw gateway name). -/
def DefaultGatewayDeploymentName (gatewayName : String) : String :=
  gatewayName ++ "-deployment"

/-- Modelled from the spec: `common.DefaultGatewayServiceName`. -/
def DefaultGatewayServiceName (gatewayName : String) : String :=
  gatewayName ++ "-gw-service"

/-- Modelled from the spec: the label key `common.LabelGatewayName`. -/
def LabelGatewayName : String := "gateway-name"

/-- Modelled from the spec: `common.GatewayTransformerPort`, the
configuration listening port placed in the processor container's
environment. -/
def GatewayTransformerPort : Nat := 9300

/-- Modelled from the spec: env var name `common.GatewayTransformerPortEnvVar`. -/
def GatewayTransformerPortEnvVar : String := "TRANSFORMER_PORT"

/-- Modelled from the spec: env var name `common.EnvVarNamespace`. -/
def EnvVarNamespace : String := "NAMESPACE"

/-- Modelled from the spec: env var name `common.GatewayTransformerConfigMapEnvVar`. -/
def GatewayTransformerConfigMapEnvVar : String := "TRANSFORMER_CONFIG_MAP"

/-- Modelled from the spec: `common.GatewayEventTransformerImage`, the
fixed platform-provided image of the transformer container. -/
def GatewayEventTransformerImage : String := "argoproj/gateway-transformer"

/-- One container environment entry. -/
structure EnvVar where
  name : String
  value : String
deriving DecidableEq, Repr

/-- One container of the deployment's pod template. -/
structure Container where
  name : String
  imagePullPolicy : String
  image : String
  env : List EnvVar
deriving DecidableEq, Repr

/-- The pod template spec: the fields the sources set. -/
structure GatewayPodSpec where
  serviceAccountName : String
  containers : List Container
deriving DecidableEq, Repr

/-- A workload deployment resource: the fields the sources set or read.
The owner reference is modelled by the owning gateway's name. -/
structure Deployment where
  name : String
  namespace_ : String
  labels : List (String × String)
  ownerGateway : String
  selectorMatchLabels : List (String × String)
  templateLabels : List (String × String)
  podSpec : GatewayPodSpec
deriving DecidableEq, Repr

/-- A configuration (ConfigMap) resource: name, namespace, owner, and a
flat string-to-string payload. -/
structure ConfigMap where
  name : String
  namespace_ : String
  ownerGateway : String
  data : List (String × String)
deriving DecidableEq, Repr

/-- A network-service resource: the fields `createGatewayService` sets. -/
structure Service where
  name : String
  namespace_ : String
  ownerGateway : String
  selector : List (String × String)
  ports : List (Int × Int)
  serviceType : String
deriving DecidableEq, Repr

/-- The transformer ConfigMap literal built at the top of `operate`'s
`NodePhaseNew` branch. -/
def gatewayConfigMapFor (gw : Gateway) : ConfigMap :=
  { name := DefaultGatewayTransformerConfigMapName gw.name
    namespace_ := gw.namespace_
    ownerGateway := gw.name
    data :=
      [ (EventSource, gw.name)
      , (EventTypeVersion, gw.spec.version)
      , (EventType, gw.spec.gatewayType)
      , (SensorList, goJoinComma gw.spec.sensors) ] }

/-- The deployment literal built in `operate`'s `NodePhaseNew` branch:
a processor container running the gateway's image and a transformer
container running the fixed platform image. -/
def gatewayDeploymentFor (gw : Gateway) : Deployment :=
  { name := DefaultGatewayDeploymentName gw.name
    namespace_ := gw.namespace_
    labels := [(LabelGatewayName, gw.name)]
    ownerGateway := gw.name
    selectorMatchLabels := [(LabelGatewayName, gw.name)]
    templateLabels := [(LabelGatewayName, gw.name)]
    podSpec :=
      { serviceAccountName := gw.spec.serviceAccountName
        containers :=
          [ { name := "gateway-processor"
              imagePullPolicy := gw.spec.imagePullPolicy
              image := gw.spec.image
              env :=
                [ { name := GatewayTransformerPortEnvVar
                    value := toString GatewayTransformerPort }
                , { name := EnvVarNamespace, value := gw.namespace_ } ] }
          , { name := "gateway-transformer"
              imagePullPolicy := "Always"
              image := GatewayEventTransformerImage
              env :=
                [ { name := GatewayTransformerConfigMapEnvVar
                    value := DefaultGatewayTransformerConfigMapName gw.name }
                , { name := EnvVarNamespace, value := gw.namespace_ } ] } ] } }

/-- The service literal built by `createGatewayService`. -/
def gatewayServiceFor (gw : Gateway) : Service :=
  { name := DefaultGatewayServiceName gw.name
    namespace_ := gw.namespace_
    ownerGateway := gw.name
    selector := [(LabelGatewayName, gw.name)]
    ports := [(gw.spec.service.port, gw.spec.service.targetPort)]
    serviceType := gw.spec.service.serviceType }

/-- Result oracles for the remote resource client: each call site of the
reconcile engine draws its outcome from this environment. Successful
creates and updates return the object as stored by the server. -/
structure KubeEnv where
  configMapCreate : ConfigMap → Except KubeError ConfigMap
  deploymentCreate : Deployment → Except KubeError Deployment
  serviceCreate : Service → Except KubeError Service
  deploymentGet : String → Except KubeError Deployment
  deploymentUpdate : Deployment → Except KubeError Deployment
  gatewayGet : String → Except KubeError Gateway
  gatewayUpdate : Gateway → Except KubeError Gateway

/-- One remote operation issued during a reconcile pass, recorded in
order in the pass's trace. -/
inductive RemoteOp where
  | createConfigMap (cm : ConfigMap)
  | createDeployment (d : Deployment)
  | createService (s : Service)
  | getDeployment (name : String)
  | updateDeployment (d : Deployment)
  | getGateway (name : String)
  | updateGateway (g : Gateway)
deriving DecidableEq, Repr

/-- The error a reconcile pass can return. Go panics (unknown phase, and
indexing `Containers[0]` of an empty container list) are modelled as
distinguished error results. -/
inductive OperateError where
  | validationErr (msg : String)
  | kubeErr (e : KubeError)
  | panicUnknownPhase (s : String)
  | panicContainerIndex
deriving DecidableEq, Repr

/-- Outcome of one reconcile pass: the returned error (if any), the
engine's final in-memory gateway, and the ordered trace of remote calls. -/
structure OperateResult where
  ret : Except OperateError Unit
  gw : Gateway
  trace : List RemoteOp
deriving Repr

/-- `reapplyUpdate` as it runs inside a pass, drawing outcomes from the
environment. Each attempt re-fetches the gateway by name, overwrites only
the status field, and updates; a retryable failure consumes one backoff
step, any other failure is fatal, and exhausting the steps yields
`errWaitTimeout`. On a failed update the engine's gateway reference is
modelled as unchanged. -/
def reapplyUpdateEnv (env : KubeEnv) (gw : Gateway) :
    Nat → List RemoteOp × Except KubeError Gateway
  | 0 => ([], .error .errWaitTimeout)
  | steps + 1 =>
    match env.gatewayGet gw.name with
    | .error e => ([.getGateway gw.name], .error e)
    | .ok g =>
      let g1 : Gateway := { g with status := gw.status }
      match env.gatewayUpdate g1 with
      | .ok g2 => ([.getGateway gw.name, .updateGateway g1], .ok g2)
      | .error e =>
        if IsRetryableKubeAPIError e then
          let rest := reapplyUpdateEnv env gw steps
          (.getGateway gw.name :: .updateGateway g1 :: rest.1, rest.2)
        else
          ([.getGateway gw.name, .updateGateway g1], .error e)

/-- The status-persisting tail shared by the `NodePhaseNew` and
`NodePhaseError` branches: a direct update, falling back to
`reapplyUpdate` when the direct update fails. -/
def persistGatewayStatus (env : KubeEnv) (steps : Nat) (gw : Gateway)
    (tr : List RemoteOp) : OperateResult :=
  match env.gatewayUpdate gw with
  | .ok gw2 => ⟨.ok (), gw2, tr ++ [.updateGateway gw]⟩
  | .error _ =>
    let rest := reapplyUpdateEnv env gw steps
    match rest.2 with
    | .ok gw2 => ⟨.ok (), gw2, tr ++ .updateGateway gw :: rest.1⟩
    | .error e => ⟨.error (.kubeErr e), gw, tr ++ .updateGateway gw :: rest.1⟩

/-- The image-pull-policy defaulting at the top of the deployment build:
an unset policy becomes "Always" (`corev1.PullAlways`). -/
def defaultPullPolicy (gw : Gateway) : Gateway :=
  if gw.spec.imagePullPolicy = "" then
    { gw with spec := { gw.spec with imagePullPolicy := "Always" } }
  else gw

/-- The `NodePhaseNew` branch from the image-pull-policy defaulting
onward: build and create the deployment; on failure mark the gateway
`Error`, on success mark it `Running` and create the service when a
non-zero port is requested (the service-create outcome is swallowed);
then persist the status. -/
def operateNewAfterConfigMap (env : KubeEnv) (steps : Nat) (gw : Gateway)
    (tr : List RemoteOp) : OperateResult :=
  let gw1 := defaultPullPolicy gw
  let d := gatewayDeploymentFor gw1
  match env.deploymentCreate d with
  | .error _ =>
    let gw2 : Gateway := { gw1 with status := .NodePhaseError }
    persistGatewayStatus env steps gw2 (tr ++ [.createDeployment d])
  | .ok _ =>
    let gw2 : Gateway := { gw1 with status := .NodePhaseRunning }
    if gw2.spec.service.port ≠ 0 then
      let svc := gatewayServiceFor gw2
      -- createGatewayService: the create outcome is logged and swallowed
      persistGatewayStatus env steps gw2
        (tr ++ [.createDeployment d, .createService svc])
    else
      persistGatewayStatus env steps gw2 (tr ++ [.createDeployment d])

/-- Embedding of `operate`: validation, then one state transition.
`steps` is the max-step bound of the backoff schedule consumed by
`reapplyUpdate` (`common.DefaultRetry`, modelled from the spec as a
finite bound). -/
def operate (env : KubeEnv) (steps : Nat) (gw0 : Gateway) : OperateResult :=
  match validate gw0 with
  | .error msg => ⟨.error (.validationErr msg), gw0, []⟩
  | .ok _ =>
    match gw0.status with
    | .NodePhaseNew =>
      let gwA : Gateway := { gw0 with status := .NodePhaseRunning }
      let cm := gatewayConfigMapFor gwA
      match env.configMapCreate cm with
      | .ok _ => operateNewAfterConfigMap env steps gwA [.createConfigMap cm]
      | .error _ =>
        -- mark the gateway as failed and persist, then the pass continues
        let gwB : Gateway := { gwA with status := .NodePhaseError }
        match env.gatewayUpdate gwB with
        | .ok gwC =>
          operateNewAfterConfigMap env steps gwC
            [.createConfigMap cm, .updateGateway gwB]
        | .error _ =>
          let rest := reapplyUpdateEnv env gwB steps
          match rest.2 with
          | .ok gwC =>
            operateNewAfterConfigMap env steps gwC
              (.createConfigMap cm :: .updateGateway gwB :: rest.1)
          | .error e =>
            ⟨.error (.kubeErr e), gwB,
              .createConfigMap cm :: .updateGateway gwB :: rest.1⟩
    | .NodePhaseError =>
      -- the fetch is addressed by the raw gateway name
      match env.deploymentGet gw0.name with
      | .error e => ⟨.error (.kubeErr e), gw0, [.getDeployment gw0.name]⟩
      | .ok d =>
        match d.podSpec.containers with
        | [] => ⟨.error .panicContainerIndex, gw0, [.getDeployment gw0.name]⟩
        | c0 :: rest =>
          let d1 : Deployment :=
            { d with podSpec :=
              { d.podSpec with containers := { c0 with image := gw0.spec.image } :: rest } }
          match env.deploymentUpdate d1 with
          | .error e =>
            ⟨.error (.kubeErr e), gw0, [.getDeployment gw0.name, .updateDeployment d1]⟩
          | .ok _ =>
            let gw1 : Gateway := { gw0 with status := .NodePhaseRunning }
            persistGatewayStatus env steps gw1
              [.getDeployment gw0.name, .updateDeployment d1]
    | .NodePhaseRunning => ⟨.ok (), gw0, []⟩
    | .unknownPhase s => ⟨.error (.panicUnknownPhase s), gw0, []⟩

/-- The services passed to a create call within a trace. -/
def servicesCreated (tr : List RemoteOp) : List Service :=
  tr.filterMap fun op =>
    match op with
    | .createService s => some s
    | _ => none

/-- The gateways passed to update calls within a trace, in order. -/
def gatewayUpdatesIn (tr : List RemoteOp) : List Gateway :=
  tr.filterMap fun op =>
    match op with
    | .updateGateway g => some g
    | _ => none

/-- The status submitted by the last gateway-update call of a trace;
when every update succeeds this is the status persisted in the store at
the end of the pass. -/
def lastPersistedStatus (tr : List RemoteOp) : Option NodePhase :=
  (gatewayUpdatesIn tr).getLast?.map Gateway.status

/-- The names of the deployments passed to create calls within a trace. -/
def deploymentsCreatedNames (tr : List RemoteOp) : List String :=
  tr.filterMap fun op =>
    match op with
    | .createDeployment d => some d.name
    | _ => none

/-- The names used by deployment-fetch calls within a trace. -/
def deploymentGetNames (tr : List RemoteOp) : List String :=
  tr.filterMap fun op =>
    match op with
    | .getDeployment n => some n
    | _ => none

/-- The outcome of one `reapplyUpdate` attempt, as classified by the
source: the Get may fail (fatal), otherwise the Update either succeeds,
fails retryably (per `IsRetryableKubeAPIError`), or fails fatally. -/
inductive AttemptOutcome where
  | updateOk
  | updateConflict
  | updateFatal (e : KubeError)
  | getFail (e : KubeError)
deriving DecidableEq, Repr

/-- The condition closure passed by `reapplyUpdate` to the backoff
helper, with the i-th attempt's remote outcomes drawn from an oracle:
`(true, none)` on success, `(false, none)` on a retryable update failure,
`(false, some e)` on a fatal Get or Update failure. -/
def reapplyUpdateCond (outcomes : Nat → AttemptOutcome) (i : Nat) :
    Bool × Option KubeError :=
  match outcomes i with
  | .updateOk => (true, none)
  | .updateConflict => (false, none)
  | .updateFatal e => (false, some e)
  | .getFail e => (false, some e)

/-- Modelled from the spec: `wait.ExponentialBackoff` with a schedule of
at most `steps` attempts (sleeping omitted). The condition runs until it
returns a result or an error, at most `steps` times; exhaustion returns
the `errWaitTimeout` sentinel. `i` counts the attempts already made and
the first component of the result is the total number of attempts. -/
def exponentialBackoff (cond : Nat → Bool × Option KubeError) :
    Nat → Nat → Nat × Option KubeError
  | i, 0 => (i, some .errWaitTimeout)
  | i, steps + 1 =>
    match cond i with
    | (true, e) => (i + 1, e)
    | (false, some e) => (i + 1, some e)
    | (false, none) => exponentialBackoff cond (i + 1) steps

/-- `reapplyUpdate` over an attempt-outcome oracle: the number of update
attempts performed and the error returned (`none` is success). -/
def reapplyUpdateModel (outcomes : Nat → AttemptOutcome) (steps : Nat) :
    Nat × Option KubeError :=
  exponentialBackoff (reapplyUpdateCond outcomes) 0 steps

/-- The typed configuration snapshot (`tConfig`). -/
structure TConfig where
  eventType : String
  eventTypeVersion : String
  sensors : List String
  eventSource : String
deriving DecidableEq, Repr

/-- The transformer's operation context: the process-wide published
snapshot (`t.Config`, a nullable pointer). -/
structure TOperationCtx where
  config : Option TConfig
deriving DecidableEq, Repr

/-- Go map lookup over the flat ConfigMap payload. -/
def lookupData : List (String × String) → String → Option String
  | [], _ => none
  | (k, v) :: rest, key => if k = key then some v else lookupData rest key

/-- Embedding of `updateConfig`: require the four payload keys in the
source's order, then replace the snapshot; on the first missing key
return an error and leave the context untouched. (Error text abridged:
the source interpolates the ConfigMap and key names.) -/
def updateConfig (t : TOperationCtx) (cm : ConfigMap) :
    TOperationCtx × Option String :=
  match lookupData cm.data EventType with
  | none => (t, some ("configMap " ++ cm.name ++ " does not have key " ++ EventType))
  | some eventType =>
    match lookupData cm.data EventTypeVersion with
    | none => (t, some ("configMap " ++ cm.name ++ " does not have key " ++ EventTypeVersion))
    | some eventTypeVersion =>
      match lookupData cm.data SensorList with
      | none => (t, some ("configMap " ++ cm.name ++ " does not have key " ++ SensorList))
      | some sensors =>
        match lookupData cm.data EventSource with
        | none => (t, some ("configMap " ++ cm.name ++ " does not have key " ++ EventSource))
        | some eventSource =>
          let snapshot : TConfig :=
            { eventType := eventType
              eventTypeVersion := eventTypeVersion
              sensors := goSplitComma sensors
              eventSource := eventSource }
          ({ t with config := some snapshot }, none)

/-- A parsed webhook `hook` configuration. -/
structure Hook where
  endpoint : String
  method : String
  port : String
deriving DecidableEq, Repr

/-- The data accompanying one logical webhook configuration: its source
identifier (`config.Src`). -/
structure ConfigData where
  src : String
deriving DecidableEq, Repr

/-- The process-wide webhook state: the server-started flag, the
`activeRoutes` map from endpoint to its set of active methods (a
duplicate-free list), and the handlers installed on the shared listener,
each remembering the source identifier its closure captured. -/
structure RouteState where
  hasServerStarted : Bool
  activeRoutes : List (String × List String)
  handlers : List (String × String)
deriving DecidableEq, Repr

/-- Go map access over a string-keyed table (`activeRoutes[endpoint]`,
and the installed-handler table). -/
def lookupRoutes : List (String × α) → String → Option α
  | [], _ => none
  | (k, v) :: rest, e => if k = e then some v else lookupRoutes rest e

/-- `activeRoutes[endpoint][method] = struct{}{}` on an existing entry:
set insertion into that endpoint's method set. -/
def insertRouteMethod : List (String × List String) → String → String →
    List (String × List String)
  | [], _, _ => []
  | (k, v) :: rest, e, m =>
    if k = e then (k, if m ∈ v then v else v ++ [m]) :: rest
    else (k, v) :: insertRouteMethod rest e m

/-- `delete(activeRoutes[endpoint], method)`: removal of the method from
that endpoint's set; deleting from an absent entry is a no-op, and the
endpoint's entry itself is never removed. -/
def removeRouteMethod : List (String × List String) → String → String →
    List (String × List String)
  | [], _, _ => []
  | (k, v) :: rest, e, m =>
    if k = e then (k, v.erase m) :: rest
    else (k, v) :: removeRouteMethod rest e m

/-- What one call to `RunConfiguration` did, besides mutating the shared
state: the configuration was marked active, whether the call blocks on
its wait group until the stop signal fires, and its immediate return
value (always nil once the configuration parsed). -/
structure RunOutcome where
  state : RouteState
  active : Bool
  waited : Bool
  ret : Option String
deriving DecidableEq, Repr

/-- Embedding of `RunConfiguration` on an already-parsed hook, up to the
point where it either blocks awaiting the stop signal or returns: lazily
mark the shared server started when a port is configured, mark the
configuration active, and when both endpoint and method are non-empty
register the method — installing a handler closure (which captures this
configuration's source identifier) only the first time the endpoint is
seen — and block; otherwise return nil at once. The lazy, guarded start
of the shared listener is split out as `serverStart`. -/
def serverStart (s : RouteState) (h : Hook) : RouteState :=
  if h.port ≠ "" ∧ ¬ s.hasServerStarted then
    { s with hasServerStarted := true }
  else s

/-- See `serverStart`: the rest of `RunConfiguration`. -/
def RunConfiguration (s : RouteState) (h : Hook) (config : ConfigData) :
    RunOutcome :=
  let s1 := serverStart s h
  if h.endpoint ≠ "" ∧ h.method ≠ "" then
    match lookupRoutes s1.activeRoutes h.endpoint with
    | none =>
      { state :=
          { s1 with
            activeRoutes := s1.activeRoutes ++ [(h.endpoint, [h.method])]
            handlers := s1.handlers ++ [(h.endpoint, config.src)] }
        active := true, waited := true, ret := none }
    | some _ =>
      { state :=
          { s1 with activeRoutes := insertRouteMethod s1.activeRoutes h.endpoint h.method }
        active := true, waited := true, ret := none }
  else
    { state := s1, active := true, waited := false, ret := none }

/-- The cleanup goroutine's action once a configuration's stop signal
fires: remove its method from its endpoint's set (the handler stays). -/
def stopConfiguration (s : RouteState) (h : Hook) : RouteState :=
  { s with activeRoutes := removeRouteMethod s.activeRoutes h.endpoint h.method }

/-- Acknowledgments a handler can write (`common.SendSuccessResponse` /
`common.SendErrorResponse`). -/
inductive Ack where
  | success
  | failure
deriving DecidableEq, Repr

/-- What handling one inbound request produced: the acknowledgments
written, in order, and the `(body, source)` pairs handed to
`DispatchEvent`. -/
structure HTTPResult where
  acks : List Ack
  dispatched : List (String × String)
deriving DecidableEq, Repr

/-- The handler closure installed by `RunConfiguration`, evaluated
against the current shared state: `none` when no handler was ever
installed for the path (the listener's default applies). Active path and
method: read the body — on success acknowledge success once and dispatch
the body unmodified under the captured source; on a read error
acknowledge failure. Inactive path or method: acknowledge failure. -/
def handleRequest (s : RouteState) (endpoint method : String)
    (body : Except String String) : Option HTTPResult :=
  match lookupRoutes s.handlers endpoint with
  | none => none
  | some src =>
    match lookupRoutes s.activeRoutes endpoint with
    | none => some ⟨[.failure], []⟩
    | some methods =>
      if method ∈ methods then
        match body with
        | .error _ => some ⟨[.failure], []⟩
        | .ok b => some ⟨[.success], [(b, src)]⟩
      else some ⟨[.failure], []⟩

/-- A fully valid sample gateway spec for concrete witnesses. The pull
policy is left unset to exercise the defaulting. -/
def sampleSpec : GatewaySpec :=
  { image := "argoproj/webhook-gateway:v0.5"
    imagePullPolicy := ""
    serviceAccountName := "argo-events-sa"
    service := { port := 12000, targetPort := 12000, serviceType := "LoadBalancer" }
    gatewayType := "webhook"
    version := "1.0"
    sensors := ["sensor-a", "sensor-b"]
    dispatchMechanism := .HTTPGateway
    deploySpec := some ()
    watchers := some { gateways := none, sensors := some ["sensor-a"] } }

/-- A sample gateway in phase `New`. -/
def gwNew : Gateway :=
  { name := "webhook", namespace_ := "argo-events", spec := sampleSpec
    status := .NodePhaseNew }

/-- The same gateway observed in phase `Error`. -/
def gwErrored : Gateway := { gwNew with status := .NodePhaseError }

/-- A sample gateway whose dispatch mechanism is none of the known kinds. -/
def gwUnknownMechanism : Gateway :=
  { gwNew with spec := { sampleSpec with dispatchMechanism := .otherMechanism "smtp" } }

/-- A deployment as it could be fetched back in the `Error` repair path:
the processor container still runs an outdated image. -/
def fetchedDeployment : Deployment :=
  { name := "webhook"
    namespace_ := "argo-events"
    labels := [(LabelGatewayName, "webhook")]
    ownerGateway := "webhook"
    selectorMatchLabels := [(LabelGatewayName, "webhook")]
    templateLabels := [(LabelGatewayName, "webhook")]
    podSpec :=
      { serviceAccountName := "argo-events-sa"
        containers :=
          [ { name := "gateway-processor"
              imagePullPolicy := "Always"
              image := "argoproj/webhook-gateway:v0.4"
              env := [ { name := EnvVarNamespace, value := "argo-events" } ] }
          , { name := "gateway-transformer"
              imagePullPolicy := "Always"
              image := GatewayEventTransformerImage
              env := [ { name := EnvVarNamespace, value := "argo-events" } ] } ] } }

/-- An environment in which every remote call succeeds; creates and
updates echo the submitted object back and the deployment fetch finds
`fetchedDeployment`. -/
def echoEnv : KubeEnv :=
  { configMapCreate := fun cm => .ok cm
    deploymentCreate := fun d => .ok d
    serviceCreate := fun s => .ok s
    deploymentGet := fun _ => .ok fetchedDeployment
    deploymentUpdate := fun d => .ok d
    gatewayGet := fun _ => .error .notFound
    gatewayUpdate := fun g => .ok g }

/-- `echoEnv`, except that every ConfigMap create fails. -/
def cmFailEnv : KubeEnv :=
  { echoEnv with configMapCreate := fun _ => .error (.other "create failed") }

/-- `echoEnv`, except that every deployment create fails. -/
def deployFailEnv : KubeEnv :=
  { echoEnv with deploymentCreate := fun _ => .error (.other "create failed") }

/-- An attempt-outcome oracle: `n` conflicts, then success. -/
def conflictsThenOk (n : Nat) : Nat → AttemptOutcome :=
  fun i => if i < n then .updateConflict else .updateOk

/-- An attempt-outcome oracle: every attempt fails non-retryably. -/
def fatalOutcomes : Nat → AttemptOutcome :=
  fun _ => .updateFatal (.other "forbidden")

/-- A ConfigMap payload carrying all four required keys. -/
def cmComplete : ConfigMap :=
  { name := "webhook-gateway-transformer-configmap"
    namespace_ := "argo-events"
    ownerGateway := "webhook"
    data :=
      [ (EventSource, "webhook")
      , (EventTypeVersion, "1.0")
      , (EventType, "webhook")
      , (SensorList, "sensor-a,sensor-b") ] }

/-- The same payload with the sensor-list key missing. -/
def cmMissingSensors : ConfigMap :=
  { cmComplete with
    data :=
      [ (EventSource, "webhook")
      , (EventTypeVersion, "1.0")
      , (EventType, "webhook") ] }

/-- A webhook state with one unrelated endpoint already active. -/
def sampleRouteState : RouteState :=
  { hasServerStarted := true
    activeRoutes := [("/other", ["POST"])]
    handlers := [("/other", "other-src")] }

/-- A previously published snapshot, used to observe that a malformed
payload leaves it in place. -/
def priorSnapshot : TConfig :=
  { eventType := "old", eventTypeVersion := "0.9"
    sensors := ["old-sensor"], eventSource := "old-source" }

theorem splitOnCommaChars_no_comma (l : List Char) (h : ¬ ',' ∈ l) :
    splitOnCommaChars l = [l] := by
  induction l with
  | nil => rfl
  | cons c cs ih =>
    simp only [List.mem_cons, not_or] at h
    simp only [splitOnCommaChars]
    rw [if_neg (fun hc => h.1 hc.symm), ih h.2]

theorem splitOnCommaChars_break (x t : List Char) (h : ¬ ',' ∈ x) :
    splitOnCommaChars (x ++ ',' :: t) = x :: splitOnCommaChars t := by
  induction x with
  | nil => simp [splitOnCommaChars]
  | cons c cs ih =>
    simp only [List.mem_cons, not_or] at h
    simp only [List.cons_append, splitOnCommaChars]
    rw [if_neg (fun hc => h.1 hc.symm)]
    rw [show cs.append (',' :: t) = cs ++ ',' :: t from rfl, ih h.2]

theorem splitOnCommaChars_joinCommaChars (l : List (List Char)) (hne : l ≠ [])
    (h : ∀ x ∈ l, ¬ ',' ∈ x) : splitOnCommaChars (joinCommaChars l) = l := by
  induction l with
  | nil => exact absurd rfl hne
  | cons x xs ih =>
    cases xs with
    | nil =>
      simpa [joinCommaChars] using splitOnCommaChars_no_comma x (h x (by simp))
    | cons y ys =>
      rw [joinCommaChars, splitOnCommaChars_break x _ (h x (by simp)),
        ih (by simp) (fun z hz => h z (by simp [hz]))]

theorem string_mk_data (s : String) : String.mk s.data = s := by
  cases s
  rfl

/-- C8 (amended). For every non-empty consumer list in which no name
contains a comma, serializing with the engine's comma join and
deserializing with the watcher's comma split returns the original list. -/
theorem split_join_roundtrip (xs : List String) (hne : xs ≠ [])
    (h : ∀ x ∈ xs, ¬ ',' ∈ x.data) :
    goSplitComma (goJoinComma xs) = xs := by
  unfold goSplitComma goJoinComma
  have hd : (String.mk (joinCommaChars (xs.map String.data))).data
      = joinCommaChars (xs.map String.data) := rfl
  rw [hd, splitOnCommaChars_joinCommaChars (xs.map String.data)
    (by simpa using hne)
    (by
      intro z hz
      obtain ⟨x, hx, rfl⟩ := List.mem_map.mp hz
      exact h x hx)]
  rw [List.map_map]
  have : (fun x => String.mk (String.data x)) = (id : String → String) := by
    funext x
    exact string_mk_data x
  simp only [Function.comp_def, this, List.map_id]

/-- C8 witness: a concrete two-sensor list survives the round trip. -/
theorem split_join_roundtrip_witness :
    goSplitComma (goJoinComma ["sensor-a", "sensor-b"]) = ["sensor-a", "sensor-b"] :=
  split_join_roundtrip ["sensor-a", "sensor-b"] (by decide) (by decide)

/-- C8 counterexample: split and join are not mutually inverse as stated
for every list — the empty consumer list joins to the empty string, which
splits back to a one-element list holding the empty string. -/
theorem split_join_cex :
    goJoinComma [] = "" ∧
    goSplitComma (goJoinComma []) = [""] ∧
    goSplitComma (goJoinComma []) ≠ ([] : List String) := by
  refine ⟨rfl, rfl, by decide⟩

theorem exponentialBackoff_conflicts (cond : Nat → Bool × Option KubeError) :
    ∀ (k i fuel : Nat), (∀ j, j < k → cond (i + j) = (false, none)) →
      cond (i + k) = (true, none) → k < fuel →
      exponentialBackoff cond i fuel = (i + k + 1, none) := by
  intro k
  induction k with
  | zero =>
    intro i fuel _ hk hfuel
    cases fuel with
    | zero => omega
    | succ f =>
      simp only [Nat.add_zero] at hk
      simp [exponentialBackoff, hk]
  | succ k ih =>
    intro i fuel hconf hk hfuel
    cases fuel with
    | zero => omega
    | succ f =>
      have h0 : cond i = (false, none) := by simpa using hconf 0 (by omega)
      have hrec : exponentialBackoff cond (i + 1) f = (i + 1 + k + 1, none) := by
        apply ih
        · intro j hj
          have hj2 := hconf (j + 1) (by omega)
          rwa [show i + (j + 1) = i + 1 + j by omega] at hj2
        · rwa [show i + 1 + k = i + (k + 1) by omega]
        · omega
      simp only [exponentialBackoff, h0, hrec]
      congr 1
      omega

/-- C3 (amended). Within the finite backoff schedule: a run of N
conflict-class failures followed by success performs exactly N+1 update
attempts and succeeds, provided N is below the schedule's max step
count; a first attempt failing non-retryably performs exactly 1 attempt
and returns that error. -/
theorem reapplyUpdate_attempt_counts (outcomes : Nat → AttemptOutcome)
    (N steps : Nat) (e : KubeError) :
    ((∀ i, i < N → outcomes i = .updateConflict) → outcomes N = .updateOk →
        N < steps → reapplyUpdateModel outcomes steps = (N + 1, none)) ∧
    (outcomes 0 = .updateFatal e → 0 < steps →
        reapplyUpdateModel outcomes steps = (1, some e)) := by
  constructor
  · intro hc hN hlt
    unfold reapplyUpdateModel
    have hall := exponentialBackoff_conflicts (reapplyUpdateCond outcomes) N 0 steps
      (by intro j hj; simp [reapplyUpdateCond, hc j hj])
      (by simp [reapplyUpdateCond, hN]) hlt
    simpa using hall
  · intro h0 hpos
    cases steps with
    | zero => omega
    | succ s =>
      unfold reapplyUpdateModel
      simp [exponentialBackoff, reapplyUpdateCond, h0]

/-- C3 witness: two conflicts then success make three attempts and
succeed; a non-retryable first failure makes one attempt and returns it. -/
theorem reapplyUpdate_attempt_counts_witness :
    reapplyUpdateModel (conflictsThenOk 2) 5 = (3, none) ∧
    reapplyUpdateModel fatalOutcomes 5 = (1, some (.other "forbidden")) := by
  constructor
  · exact (reapplyUpdate_attempt_counts (conflictsThenOk 2) 2 5 .errWaitTimeout).1
      (by decide) (by decide) (by decide)
  · exact (reapplyUpdate_attempt_counts fatalOutcomes 0 5 (.other "forbidden")).2
      (by decide) (by decide)

/-- C3 counterexample: "for every N" fails once N reaches the schedule's
max step count — three conflicts then success against a three-step
schedule stops after 3 attempts with the timeout sentinel instead of
making N+1 = 4 attempts and succeeding. -/
theorem reapplyUpdate_exhaustion_cex :
    (∀ i, i < 3 → conflictsThenOk 3 i = .updateConflict) ∧
    conflictsThenOk 3 3 = .updateOk ∧
    reapplyUpdateModel (conflictsThenOk 3) 3 = (3, some .errWaitTimeout) ∧
    reapplyUpdateModel (conflictsThenOk 3) 3 ≠ (3 + 1, none) := by
  refine ⟨by decide, by decide, by decide, by decide⟩

/-- C7. A payload holding all four required keys replaces the snapshot
with one whose consumer list is the comma-split of the sensor-list
string, order preserved, and reports no error; a payload missing any of
the four keys yields an error and leaves the context — in particular the
previously published snapshot — unchanged. -/
theorem updateConfig_spec (t : TOperationCtx) (cm : ConfigMap)
    (vET vETV vSL vES : String) :
    (lookupData cm.data EventType = some vET →
     lookupData cm.data EventTypeVersion = some vETV →
     lookupData cm.data SensorList = some vSL →
     lookupData cm.data EventSource = some vES →
       updateConfig t cm =
         ({ t with config := some (TConfig.mk vET vETV (goSplitComma vSL) vES) }, none)) ∧
    ((lookupData cm.data EventType = none ∨
      lookupData cm.data EventTypeVersion = none ∨
      lookupData cm.data SensorList = none ∨
      lookupData cm.data EventSource = none) →
       (updateConfig t cm).1 = t ∧ ((updateConfig t cm).2).isSome = true) := by
  constructor
  · intro h1 h2 h3 h4
    unfold updateConfig
    rw [h1, h2, h3, h4]
  · intro hmiss
    rcases hET : lookupData cm.data EventType with _ | a
    · simp [updateConfig, hET]
    rcases hETV : lookupData cm.data EventTypeVersion with _ | b
    · simp [updateConfig, hET, hETV]
    rcases hSL : lookupData cm.data SensorList with _ | c
    · simp [updateConfig, hET, hETV, hSL]
    rcases hES : lookupData cm.data EventSource with _ | d
    · simp [updateConfig, hET, hETV, hSL, hES]
    · rcases hmiss with h | h | h | h <;> simp_all

/-- C7 witness: the complete sample payload publishes the comma-split
sensor list; the payload missing the sensor-list key keeps the prior
snapshot and surfaces an error. -/
theorem updateConfig_spec_witness :
    updateConfig ⟨none⟩ cmComplete =
      (⟨some (TConfig.mk "webhook" "1.0" (goSplitComma "sensor-a,sensor-b") "webhook")⟩, none) ∧
    (updateConfig ⟨some priorSnapshot⟩ cmMissingSensors).1 = ⟨some priorSnapshot⟩ ∧
    ((updateConfig ⟨some priorSnapshot⟩ cmMissingSensors).2).isSome = true := by
  refine ⟨?_, ?_, ?_⟩
  · exact (updateConfig_spec ⟨none⟩ cmComplete "webhook" "1.0" "sensor-a,sensor-b" "webhook").1
      (by decide) (by decide) (by decide) (by decide)
  · exact ((updateConfig_spec ⟨some priorSnapshot⟩ cmMissingSensors "x" "x" "x" "x").2
      (by refine Or.inr (Or.inr (Or.inl ?_)); decide)).1
  · exact ((updateConfig_spec ⟨some priorSnapshot⟩ cmMissingSensors "x" "x" "x" "x").2
      (by refine Or.inr (Or.inr (Or.inl ?_)); decide)).2

/-- C9. A gateway whose dispatch mechanism is none of the three known
kinds fails validation; `operate` then returns that validation error
having performed no remote write at all, and when the three field checks
pass the error is exactly the unknown-gateway-type one. -/
theorem validate_rejects_unknown_mechanism (env : KubeEnv) (steps : Nat)
    (gw : Gateway) (s : String)
    (hm : gw.spec.dispatchMechanism = .otherMechanism s) :
    (∃ msg, validate gw = .error msg) ∧
    (operate env steps gw).trace = [] ∧
    (∃ msg, (operate env steps gw).ret = .error (.validationErr msg)) ∧
    (gw.spec.deploySpec.isNone = false → ¬ gw.spec.gatewayType = "" →
      ¬ gw.spec.version = "" → validate gw = .error "unknown gateway type") := by
  have hval : ∃ msg, validate gw = .error msg := by
    unfold validate
    by_cases h1 : gw.spec.deploySpec.isNone <;>
      by_cases h2 : gw.spec.gatewayType = "" <;>
      by_cases h3 : gw.spec.version = "" <;>
      simp [h1, h2, h3, hm]
  obtain ⟨msg, hmsg⟩ := hval
  refine ⟨⟨msg, hmsg⟩, ?_, ⟨msg, ?_⟩, ?_⟩
  · unfold operate
    rw [hmsg]
  · unfold operate
    rw [hmsg]
  · intro h1 h2 h3
    unfold validate
    rw [if_neg (by simp [h1]), if_neg h2, if_neg h3, hm]

/-- C9 witness: the sample gateway declaring an unsupported mechanism is
rejected with the unknown-gateway-type error and the pass issues no
remote operation. -/
theorem validate_rejects_unknown_mechanism_witness :
    validate gwUnknownMechanism = .error "unknown gateway type" ∧
    (operate echoEnv 3 gwUnknownMechanism).trace = [] :=
  ⟨(validate_rejects_unknown_mechanism echoEnv 3 gwUnknownMechanism "smtp" rfl).2.2.2
      (by decide) (by decide) (by decide),
   (validate_rejects_unknown_mechanism echoEnv 3 gwUnknownMechanism "smtp" rfl).2.1⟩

/-- C10. On a parsed hook with an empty endpoint or an empty method,
`RunConfiguration` registers no route and installs no handler, still
marks the configuration active, and returns nil immediately without
awaiting the configuration's stop signal. -/
theorem RunConfiguration_empty_route (s : RouteState) (h : Hook)
    (c : ConfigData) (hempty : h.endpoint = "" ∨ h.method = "") :
    (RunConfiguration s h c).state.activeRoutes = s.activeRoutes ∧
    (RunConfiguration s h c).state.handlers = s.handlers ∧
    (RunConfiguration s h c).active = true ∧
    (RunConfiguration s h c).waited = false ∧
    (RunConfiguration s h c).ret = none := by
  have hcond : ¬ (h.endpoint ≠ "" ∧ h.method ≠ "") := by
    rcases hempty with h1 | h1 <;> simp [h1]
  unfold RunConfiguration
  rw [if_neg hcond]
  refine ⟨?_, ?_, rfl, rfl, rfl⟩ <;>
    (unfold serverStart; split <;> rfl)

/-- C10 witness: a hook with an empty endpoint leaves the sample route
state's routes and handlers unchanged, is marked active, and returns nil
without waiting. -/
theorem RunConfiguration_empty_route_witness :
    (RunConfiguration sampleRouteState ⟨"", "POST", "12000"⟩ ⟨"src1"⟩).state.activeRoutes
        = sampleRouteState.activeRoutes ∧
    (RunConfiguration sampleRouteState ⟨"", "POST", "12000"⟩ ⟨"src1"⟩).state.handlers
        = sampleRouteState.handlers ∧
    (RunConfiguration sampleRouteState ⟨"", "POST", "12000"⟩ ⟨"src1"⟩).active = true ∧
    (RunConfiguration sampleRouteState ⟨"", "POST", "12000"⟩ ⟨"src1"⟩).waited = false ∧
    (RunConfiguration sampleRouteState ⟨"", "POST", "12000"⟩ ⟨"src1"⟩).ret = none :=
  RunConfiguration_empty_route sampleRouteState ⟨"", "POST", "12000"⟩ ⟨"src1"⟩
    (Or.inl rfl)

theorem lookupRoutes_append {α : Type} (l r : List (String × α)) (k : String) :
    lookupRoutes (l ++ r) k =
      match lookupRoutes l k with
      | some v => some v
      | none => lookupRoutes r k := by
  induction l with
  | nil => rfl
  | cons p rest ih =>
    obtain ⟨a, v⟩ := p
    simp only [List.cons_append, lookupRoutes]
    by_cases hk : a = k <;> simp [hk, ih]

theorem lookupRoutes_insertRouteMethod (l : List (String × List String))
    (e m k : String) :
    lookupRoutes (insertRouteMethod l e m) k =
      if k = e then
        (lookupRoutes l e).map (fun v => if m ∈ v then v else v ++ [m])
      else lookupRoutes l k := by
  induction l with
  | nil => by_cases hk : k = e <;> simp [insertRouteMethod, lookupRoutes, hk]
  | cons p rest ih =>
    obtain ⟨a, v⟩ := p
    by_cases hae : a = e
    · subst hae
      by_cases hk : k = a
      · subst hk
        simp [insertRouteMethod, lookupRoutes]
      · have hk2 : ¬ a = k := fun hh => hk hh.symm
        simp [insertRouteMethod, lookupRoutes, hk, hk2]
    · by_cases hk : a = k
      · subst hk
        have hke : ¬ a = e := hae
        simp [insertRouteMethod, lookupRoutes, hae, hke]
      · simp [insertRouteMethod, lookupRoutes, hae, hk, ih]

theorem lookupRoutes_removeRouteMethod (l : List (String × List String))
    (e m k : String) :
    lookupRoutes (removeRouteMethod l e m) k =
      if k = e then (lookupRoutes l e).map (fun v => v.erase m)
      else lookupRoutes l k := by
  induction l with
  | nil => by_cases hk : k = e <;> simp [removeRouteMethod, lookupRoutes, hk]
  | cons p rest ih =>
    obtain ⟨a, v⟩ := p
    by_cases hae : a = e
    · subst hae
      by_cases hk : k = a
      · subst hk
        simp [removeRouteMethod, lookupRoutes]
      · have hk2 : ¬ a = k := fun hh => hk hh.symm
        simp [removeRouteMethod, lookupRoutes, hk, hk2]
    · by_cases hk : a = k
      · subst hk
        have hke : ¬ a = e := hae
        simp [removeRouteMethod, lookupRoutes, hae, hke]
      · simp [removeRouteMethod, lookupRoutes, hae, hk, ih]

theorem serverStart_activeRoutes (s : RouteState) (h : Hook) :
    (serverStart s h).activeRoutes = s.activeRoutes := by
  unfold serverStart
  split <;> rfl

theorem serverStart_handlers (s : RouteState) (h : Hook) :
    (serverStart s h).handlers = s.handlers := by
  unfold serverStart
  split <;> rfl

theorem RunConfiguration_fresh (s : RouteState) (h : Hook) (c : ConfigData)
    (he : lookupRoutes s.activeRoutes h.endpoint = none)
    (hep : ¬ h.endpoint = "") (hm : ¬ h.method = "") :
    (RunConfiguration s h c).state.activeRoutes
        = s.activeRoutes ++ [(h.endpoint, [h.method])] ∧
    (RunConfiguration s h c).state.handlers
        = s.handlers ++ [(h.endpoint, c.src)] ∧
    (RunConfiguration s h c).waited = true := by
  unfold RunConfiguration
  rw [if_pos ⟨hep, hm⟩, serverStart_activeRoutes, he]
  exact ⟨serverStart_activeRoutes s h ▸ rfl, serverStart_handlers s h ▸ rfl, rfl⟩

theorem RunConfiguration_existing (s : RouteState) (h : Hook) (c : ConfigData)
    (v : List String)
    (he : lookupRoutes s.activeRoutes h.endpoint = some v)
    (hep : ¬ h.endpoint = "") (hm : ¬ h.method = "") :
    (RunConfiguration s h c).state.activeRoutes
        = insertRouteMethod s.activeRoutes h.endpoint h.method ∧
    (RunConfiguration s h c).state.handlers = s.handlers ∧
    (RunConfiguration s h c).waited = true := by
  unfold RunConfiguration
  rw [if_pos ⟨hep, hm⟩, serverStart_activeRoutes, he]
  exact ⟨serverStart_activeRoutes s h ▸ rfl, serverStart_handlers s h ▸ rfl, rfl⟩

/-- C2. Registering methods M1 then M2 on the same fresh endpoint makes
both active; a request with an active endpoint/method pair receives the
success acknowledgment exactly once and its body is handed unmodified to
the dispatch target (keyed by the source captured at handler install
time); a request whose method is not active receives the error
acknowledgment; deregistering M1 via its stop signal leaves M2 active,
M1 inactive, and every other endpoint's method set untouched. -/
theorem routeTable_register_handle_deregister
    (s0 s1 s2 s3 : RouteState) (e M1 M2 src1 src2 p1 p2 b m : String)
    (he : lookupRoutes s0.activeRoutes e = none)
    (hh : lookupRoutes s0.handlers e = none)
    (hep : ¬ e = "") (hm1 : ¬ M1 = "") (hm2 : ¬ M2 = "") (h12 : ¬ M1 = M2)
    (hs1 : s1 = (RunConfiguration s0 ⟨e, M1, p1⟩ ⟨src1⟩).state)
    (hs2 : s2 = (RunConfiguration s1 ⟨e, M2, p2⟩ ⟨src2⟩).state)
    (hs3 : s3 = stopConfiguration s2 ⟨e, M1, p1⟩) :
    lookupRoutes s2.activeRoutes e = some [M1, M2] ∧
    handleRequest s2 e M1 (.ok b) = some ⟨[.success], [(b, src1)]⟩ ∧
    handleRequest s2 e M2 (.ok b) = some ⟨[.success], [(b, src1)]⟩ ∧
    (¬ m = M1 → ¬ m = M2 → handleRequest s2 e m (.ok b) = some ⟨[.failure], []⟩) ∧
    lookupRoutes s3.activeRoutes e = some [M2] ∧
    (∀ k, ¬ k = e → lookupRoutes s3.activeRoutes k = lookupRoutes s2.activeRoutes k) := by
  obtain ⟨ha1, hh1, _⟩ := RunConfiguration_fresh s0 ⟨e, M1, p1⟩ ⟨src1⟩ he hep hm1
  have hs1a : s1.activeRoutes = s0.activeRoutes ++ [(e, [M1])] := by rw [hs1, ha1]
  have hs1h : s1.handlers = s0.handlers ++ [(e, src1)] := by rw [hs1, hh1]
  have hlook1 : lookupRoutes s1.activeRoutes e = some [M1] := by
    rw [hs1a, lookupRoutes_append, he]
    simp [lookupRoutes]
  obtain ⟨ha2, hh2, _⟩ :=
    RunConfiguration_existing s1 ⟨e, M2, p2⟩ ⟨src2⟩ [M1] hlook1 hep hm2
  have hs2a : s2.activeRoutes = insertRouteMethod s1.activeRoutes e M2 := by
    rw [hs2, ha2]
  have hs2h : s2.handlers = s1.handlers := by rw [hs2, hh2]
  have h21 : ¬ M2 = M1 := fun hq => h12 hq.symm
  have hlook2 : lookupRoutes s2.activeRoutes e = some [M1, M2] := by
    rw [hs2a, lookupRoutes_insertRouteMethod, if_pos rfl, hlook1]
    simp [h21]
  have hhand : lookupRoutes s2.handlers e = some src1 := by
    rw [hs2h, hs1h, lookupRoutes_append, hh]
    simp [lookupRoutes]
  refine ⟨hlook2, ?_, ?_, ?_, ?_, ?_⟩
  · simp [handleRequest, hhand, hlook2]
  · simp [handleRequest, hhand, hlook2]
  · intro hx1 hx2
    simp [handleRequest, hhand, hlook2, hx1, hx2]
  · rw [hs3]
    unfold stopConfiguration
    rw [show (RouteState.mk s2.hasServerStarted
        (removeRouteMethod s2.activeRoutes e M1) s2.handlers).activeRoutes
        = removeRouteMethod s2.activeRoutes e M1 from rfl]
    rw [lookupRoutes_removeRouteMethod, if_pos rfl, hlook2]
    simp [List.erase_cons_head]
  · intro k hk
    rw [hs3]
    unfold stopConfiguration
    rw [show (RouteState.mk s2.hasServerStarted
        (removeRouteMethod s2.activeRoutes e M1) s2.handlers).activeRoutes
        = removeRouteMethod s2.activeRoutes e M1 from rfl]
    rw [lookupRoutes_removeRouteMethod, if_neg hk]

/-- C2 witness: the concrete register POST, register PUT, request,
deregister POST scenario on the sample state. -/
theorem routeTable_register_handle_deregister_witness :
    handleRequest
        (RunConfiguration
          (RunConfiguration sampleRouteState ⟨"/hook", "POST", "12000"⟩ ⟨"src1"⟩).state
          ⟨"/hook", "PUT", "12000"⟩ ⟨"src2"⟩).state
        "/hook" "POST" (.ok "payload") = some ⟨[.success], [("payload", "src1")]⟩ ∧
    handleRequest
        (RunConfiguration
          (RunConfiguration sampleRouteState ⟨"/hook", "POST", "12000"⟩ ⟨"src1"⟩).state
          ⟨"/hook", "PUT", "12000"⟩ ⟨"src2"⟩).state
        "/hook" "GET" (.ok "payload") = some ⟨[.failure], []⟩ ∧
    lookupRoutes
        (stopConfiguration
          (RunConfiguration
            (RunConfiguration sampleRouteState ⟨"/hook", "POST", "12000"⟩ ⟨"src1"⟩).state
            ⟨"/hook", "PUT", "12000"⟩ ⟨"src2"⟩).state
          ⟨"/hook", "POST", "12000"⟩).activeRoutes "/hook" = some ["PUT"] := by
  have T := routeTable_register_handle_deregister
    sampleRouteState _ _ _ "/hook" "POST" "PUT" "src1" "src2" "12000" "12000"
    "payload" "GET"
    (by decide) (by decide) (by decide) (by decide) (by decide) (by decide)
    rfl rfl rfl
  exact ⟨T.2.1, T.2.2.2.1 (by decide) (by decide), T.2.2.2.2.1⟩

theorem persistGatewayStatus_echo (env : KubeEnv) (steps : Nat) (gw : Gateway)
    (tr : List RemoteOp) (hu : ∀ g, env.gatewayUpdate g = .ok g) :
    persistGatewayStatus env steps gw tr = ⟨.ok (), gw, tr ++ [.updateGateway gw]⟩ := by
  unfold persistGatewayStatus
  rw [hu]

theorem defaultPullPolicy_status (gw : Gateway) :
    (defaultPullPolicy gw).status = gw.status := by
  unfold defaultPullPolicy
  split <;> rfl

theorem defaultPullPolicy_service (gw : Gateway) :
    (defaultPullPolicy gw).spec.service = gw.spec.service := by
  unfold defaultPullPolicy
  split <;> rfl

theorem servicesCreated_append (l r : List RemoteOp) :
    servicesCreated (l ++ r) = servicesCreated l ++ servicesCreated r := by
  unfold servicesCreated
  exact List.filterMap_append l r _

theorem gatewayUpdatesIn_append (l r : List RemoteOp) :
    gatewayUpdatesIn (l ++ r) = gatewayUpdatesIn l ++ gatewayUpdatesIn r := by
  unfold gatewayUpdatesIn
  exact List.filterMap_append l r _

theorem lastPersistedStatus_concat (tr : List RemoteOp) (g : Gateway) :
    lastPersistedStatus (tr ++ [.updateGateway g]) = some g.status := by
  unfold lastPersistedStatus
  rw [gatewayUpdatesIn_append]
  simp [gatewayUpdatesIn, List.getLast?_concat]

theorem operateNewAfterConfigMap_createOk (env : KubeEnv) (steps : Nat)
    (gw : Gateway) (tr : List RemoteOp)
    (hu : ∀ g, env.gatewayUpdate g = .ok g)
    (hd : ∀ d, env.deploymentCreate d = .ok d) :
    operateNewAfterConfigMap env steps gw tr =
      if gw.spec.service.port ≠ 0 then
        ⟨.ok (), { defaultPullPolicy gw with status := .NodePhaseRunning },
          (tr ++ [.createDeployment (gatewayDeploymentFor (defaultPullPolicy gw)),
            .createService (gatewayServiceFor
              { defaultPullPolicy gw with status := .NodePhaseRunning })])
          ++ [.updateGateway { defaultPullPolicy gw with status := .NodePhaseRunning }]⟩
      else
        ⟨.ok (), { defaultPullPolicy gw with status := .NodePhaseRunning },
          (tr ++ [.createDeployment (gatewayDeploymentFor (defaultPullPolicy gw))])
          ++ [.updateGateway { defaultPullPolicy gw with status := .NodePhaseRunning }]⟩ := by
  simp only [operateNewAfterConfigMap]
  rw [hd]
  have hport : ({ defaultPullPolicy gw with status := NodePhase.NodePhaseRunning }
      : Gateway).spec.service.port = gw.spec.service.port := by
    rw [show ({ defaultPullPolicy gw with status := NodePhase.NodePhaseRunning }
      : Gateway).spec.service = (defaultPullPolicy gw).spec.service from rfl]
    rw [defaultPullPolicy_service]
  by_cases hp : gw.spec.service.port = 0
  · rw [if_neg (by simp [defaultPullPolicy_service, hport, hp]),
      if_neg (by simp [defaultPullPolicy_service, hport, hp])]
    exact persistGatewayStatus_echo env steps _ _ hu
  · rw [if_pos (by simp [defaultPullPolicy_service, hport, hp]),
      if_pos (by simp [defaultPullPolicy_service, hport, hp])]
    exact persistGatewayStatus_echo env steps _ _ hu

theorem operateNewAfterConfigMap_createFail (env : KubeEnv) (steps : Nat)
    (gw : Gateway) (tr : List RemoteOp) (ke : KubeError)
    (hu : ∀ g, env.gatewayUpdate g = .ok g)
    (hd : ∀ d, env.deploymentCreate d = .error ke) :
    operateNewAfterConfigMap env steps gw tr =
      ⟨.ok (), { defaultPullPolicy gw with status := .NodePhaseError },
        (tr ++ [.createDeployment (gatewayDeploymentFor (defaultPullPolicy gw))])
        ++ [.updateGateway { defaultPullPolicy gw with status := .NodePhaseError }]⟩ := by
  simp only [operateNewAfterConfigMap]
  rw [hd]
  exact persistGatewayStatus_echo env steps _ _ hu

theorem operateNewAfterConfigMap_trace_prefix (env : KubeEnv) (steps : Nat)
    (gw : Gateway) (tr : List RemoteOp)
    (hu : ∀ g, env.gatewayUpdate g = .ok g) :
    ∃ rest, (operateNewAfterConfigMap env steps gw tr).trace = tr ++ rest := by
  simp only [operateNewAfterConfigMap]
  rcases env.deploymentCreate (gatewayDeploymentFor (defaultPullPolicy gw)) with e | d2
  · dsimp only
    rw [persistGatewayStatus_echo env steps _ _ hu]
    exact ⟨_, by rw [List.append_assoc]⟩
  · dsimp only
    by_cases hp : (defaultPullPolicy gw).spec.service.port = 0
    · rw [if_neg (by simp [hp]), persistGatewayStatus_echo env steps _ _ hu]
      exact ⟨_, by rw [List.append_assoc]⟩
    · rw [if_pos hp, persistGatewayStatus_echo env steps _ _ hu]
      exact ⟨_, by rw [List.append_assoc]⟩

theorem operate_new_cmOk (env : KubeEnv) (steps : Nat) (gw : Gateway)
    (c : ConfigMap)
    (hN : gw.status = .NodePhaseNew) (hv : validate gw = .ok ())
    (hcm : env.configMapCreate
      (gatewayConfigMapFor { gw with status := .NodePhaseRunning }) = .ok c) :
    operate env steps gw =
      operateNewAfterConfigMap env steps { gw with status := .NodePhaseRunning }
        [.createConfigMap (gatewayConfigMapFor { gw with status := .NodePhaseRunning })] := by
  unfold operate
  rw [hv, hN]
  simp only
  rw [hcm]

theorem operate_new_cmFail (env : KubeEnv) (steps : Nat) (gw : Gateway)
    (ke : KubeError)
    (hN : gw.status = .NodePhaseNew) (hv : validate gw = .ok ())
    (hu : ∀ g, env.gatewayUpdate g = .ok g)
    (hcm : env.configMapCreate
      (gatewayConfigMapFor { gw with status := .NodePhaseRunning }) = .error ke) :
    operate env steps gw =
      operateNewAfterConfigMap env steps { gw with status := .NodePhaseError }
        [.createConfigMap (gatewayConfigMapFor { gw with status := .NodePhaseRunning }),
         .updateGateway { gw with status := .NodePhaseError }] := by
  unfold operate
  rw [hv, hN]
  simp only
  rw [hcm, hu]

theorem operateNewAfterConfigMap_ok_facts (env : KubeEnv) (steps : Nat)
    (gwS : Gateway) (tr0 : List RemoteOp)
    (hu : ∀ g, env.gatewayUpdate g = .ok g)
    (hd : ∀ d, env.deploymentCreate d = .ok d)
    (h0 : servicesCreated tr0 = []) :
    (operateNewAfterConfigMap env steps gwS tr0).ret = .ok () ∧
    (operateNewAfterConfigMap env steps gwS tr0).gw.status = .NodePhaseRunning ∧
    lastPersistedStatus (operateNewAfterConfigMap env steps gwS tr0).trace
        = some .NodePhaseRunning ∧
    (¬ servicesCreated (operateNewAfterConfigMap env steps gwS tr0).trace = []
        ↔ ¬ gwS.spec.service.port = 0) := by
  rw [operateNewAfterConfigMap_createOk env steps gwS tr0 hu hd]
  by_cases hp : gwS.spec.service.port = 0
  · rw [if_neg (by simp [hp])]
    refine ⟨rfl, rfl, ?_, ?_⟩
    · rw [lastPersistedStatus_concat]
    · rw [servicesCreated_append, servicesCreated_append, h0]
      simp [servicesCreated, hp]
  · rw [if_pos (by simp [hp])]
    refine ⟨rfl, rfl, ?_, ?_⟩
    · rw [lastPersistedStatus_concat]
    · rw [servicesCreated_append, servicesCreated_append, h0]
      simp [servicesCreated, hp]

theorem operateNewAfterConfigMap_fail_facts (env : KubeEnv) (steps : Nat)
    (gwS : Gateway) (tr0 : List RemoteOp) (ke : KubeError)
    (hu : ∀ g, env.gatewayUpdate g = .ok g)
    (hd : ∀ d, env.deploymentCreate d = .error ke)
    (h0 : servicesCreated tr0 = []) :
    (operateNewAfterConfigMap env steps gwS tr0).ret = .ok () ∧
    (operateNewAfterConfigMap env steps gwS tr0).gw.status = .NodePhaseError ∧
    lastPersistedStatus (operateNewAfterConfigMap env steps gwS tr0).trace
        = some .NodePhaseError ∧
    servicesCreated (operateNewAfterConfigMap env steps gwS tr0).trace = [] := by
  rw [operateNewAfterConfigMap_createFail env steps gwS tr0 ke hu hd]
  refine ⟨rfl, rfl, ?_, ?_⟩
  · rw [lastPersistedStatus_concat]
  · rw [servicesCreated_append, servicesCreated_append, h0]
    simp [servicesCreated]

/-- C1. For a validated gateway in phase New whose status-persisting
updates succeed: if the deployment create succeeds the pass returns ok,
the final and persisted status are Running, and a network-service create
is issued iff the requested service port is non-zero; if the deployment
create fails the final and persisted status are Error and no service
create is issued. -/
theorem operate_new_deployment_create (env : KubeEnv) (steps : Nat)
    (gw : Gateway) (ke : KubeError)
    (hN : gw.status = .NodePhaseNew) (hv : validate gw = .ok ())
    (hu : ∀ g, env.gatewayUpdate g = .ok g) :
    ((∀ d, env.deploymentCreate d = .ok d) →
        (operate env steps gw).ret = .ok () ∧
        (operate env steps gw).gw.status = .NodePhaseRunning ∧
        lastPersistedStatus (operate env steps gw).trace = some .NodePhaseRunning ∧
        (¬ servicesCreated (operate env steps gw).trace = []
            ↔ ¬ gw.spec.service.port = 0)) ∧
    ((∀ d, env.deploymentCreate d = .error ke) →
        (operate env steps gw).gw.status = .NodePhaseError ∧
        lastPersistedStatus (operate env steps gw).trace = some .NodePhaseError ∧
        servicesCreated (operate env steps gw).trace = []) := by
  rcases hcm : env.configMapCreate
      (gatewayConfigMapFor { gw with status := .NodePhaseRunning }) with ke2 | c
  · have hop := operate_new_cmFail env steps gw ke2 hN hv hu hcm
    refine ⟨fun hd => ?_, fun hd => ?_⟩
    · rw [hop]
      exact operateNewAfterConfigMap_ok_facts env steps
        { gw with status := .NodePhaseError }
        [.createConfigMap (gatewayConfigMapFor { gw with status := .NodePhaseRunning }),
         .updateGateway { gw with status := .NodePhaseError }] hu hd rfl
    · rw [hop]
      have hf := operateNewAfterConfigMap_fail_facts env steps
        { gw with status := .NodePhaseError }
        [.createConfigMap (gatewayConfigMapFor { gw with status := .NodePhaseRunning }),
         .updateGateway { gw with status := .NodePhaseError }] ke hu hd rfl
      exact ⟨hf.2.1, hf.2.2.1, hf.2.2.2⟩
  · have hop := operate_new_cmOk env steps gw c hN hv hcm
    refine ⟨fun hd => ?_, fun hd => ?_⟩
    · rw [hop]
      exact operateNewAfterConfigMap_ok_facts env steps
        { gw with status := .NodePhaseRunning }
        [.createConfigMap (gatewayConfigMapFor { gw with status := .NodePhaseRunning })]
        hu hd rfl
    · rw [hop]
      have hf := operateNewAfterConfigMap_fail_facts env steps
        { gw with status := .NodePhaseRunning }
        [.createConfigMap (gatewayConfigMapFor { gw with status := .NodePhaseRunning })]
        ke hu hd rfl
      exact ⟨hf.2.1, hf.2.2.1, hf.2.2.2⟩

/-- C1 witness: on the sample gateway, the all-success environment ends
with persisted status Running and a service create (its port is 12000),
while the deployment-create-failing environment ends with persisted
status Error and no service create. -/
theorem operate_new_deployment_create_witness :
    lastPersistedStatus (operate echoEnv 3 gwNew).trace = some .NodePhaseRunning ∧
    ¬ servicesCreated (operate echoEnv 3 gwNew).trace = [] ∧
    lastPersistedStatus (operate deployFailEnv 3 gwNew).trace = some .NodePhaseError ∧
    servicesCreated (operate deployFailEnv 3 gwNew).trace = [] := by
  have hok := (operate_new_deployment_create echoEnv 3 gwNew (.other "x")
    rfl rfl (fun g => rfl)).1 (fun d => rfl)
  have hfail := (operate_new_deployment_create deployFailEnv 3 gwNew
    (.other "create failed") rfl rfl (fun g => rfl)).2 (fun d => rfl)
  exact ⟨hok.2.2.1, hok.2.2.2.mpr (by decide), hfail.2.1, hfail.2.2⟩

/-- C4 (amended). When the ConfigMap create fails on a validated New
gateway (updates succeeding), the engine transitions to Error and the
first persisted status of the pass is Error; but the pass then continues,
so the status persisted at the end of the pass is Error only if the
subsequent deployment create also fails — if the deployment create
succeeds, the final persisted status is Running. -/
theorem operate_new_configmap_failure (env : KubeEnv) (steps : Nat)
    (gw : Gateway) (ke ke2 : KubeError)
    (hN : gw.status = .NodePhaseNew) (hv : validate gw = .ok ())
    (hu : ∀ g, env.gatewayUpdate g = .ok g)
    (hcm : ∀ c, env.configMapCreate c = .error ke) :
    (gatewayUpdatesIn (operate env steps gw).trace).head?
        = some { gw with status := .NodePhaseError } ∧
    ((∀ d, env.deploymentCreate d = .error ke2) →
        lastPersistedStatus (operate env steps gw).trace = some .NodePhaseError) ∧
    ((∀ d, env.deploymentCreate d = .ok d) →
        lastPersistedStatus (operate env steps gw).trace = some .NodePhaseRunning) := by
  have hop := operate_new_cmFail env steps gw ke hN hv hu (hcm _)
  refine ⟨?_, fun hd => ?_, fun hd => ?_⟩
  · rw [hop]
    obtain ⟨rest, hrest⟩ := operateNewAfterConfigMap_trace_prefix env steps
      { gw with status := .NodePhaseError }
      [.createConfigMap (gatewayConfigMapFor { gw with status := .NodePhaseRunning }),
       .updateGateway { gw with status := .NodePhaseError }] hu
    rw [hrest, gatewayUpdatesIn_append]
    simp [gatewayUpdatesIn]
  · rw [hop]
    exact (operateNewAfterConfigMap_fail_facts env steps
      { gw with status := .NodePhaseError }
      [.createConfigMap (gatewayConfigMapFor { gw with status := .NodePhaseRunning }),
       .updateGateway { gw with status := .NodePhaseError }] ke2 hu hd rfl).2.2.1
  · rw [hop]
    exact (operateNewAfterConfigMap_ok_facts env steps
      { gw with status := .NodePhaseError }
      [.createConfigMap (gatewayConfigMapFor { gw with status := .NodePhaseRunning }),
       .updateGateway { gw with status := .NodePhaseError }] hu hd rfl).2.2.1

/-- C4 witness: with the ConfigMap create failing and the deployment
create also failing, the sample pass ends with persisted status Error. -/
theorem operate_new_configmap_failure_witness :
    lastPersistedStatus
        (operate { cmFailEnv with deploymentCreate := fun _ => .error (.other "create failed") }
          3 gwNew).trace = some .NodePhaseError := by
  exact (operate_new_configmap_failure
    { cmFailEnv with deploymentCreate := fun _ => .error (.other "create failed") }
    3 gwNew (.other "create failed") (.other "create failed")
    rfl rfl (fun g => rfl) (fun c => rfl)).2.1 (fun d => rfl)

/-- C4 counterexample: the claim that the status persisted at the end of
the pass is Error fails — on the sample gateway with the ConfigMap
create failing but the deployment create succeeding, the pass ends with
persisted status Running, not Error. -/
theorem operate_new_configmap_failure_cex :
    (∀ c, cmFailEnv.configMapCreate c = .error (.other "create failed")) ∧
    gwNew.status = .NodePhaseNew ∧
    validate gwNew = .ok () ∧
    lastPersistedStatus (operate cmFailEnv 3 gwNew).trace = some .NodePhaseRunning ∧
    ¬ lastPersistedStatus (operate cmFailEnv 3 gwNew).trace = some .NodePhaseError := by
  exact ⟨fun c => rfl, rfl, rfl, by decide, by decide⟩

/-- C5. On a validated gateway in phase Error where the deployment fetch
and both updates succeed, the pass submits exactly the fetched deployment
with only the first (processor) container's image replaced by the
gateway's desired image — every other deployment field, and every other
field of that container, is unchanged — then sets and persists status
Running. -/
theorem operate_error_repair (env : KubeEnv) (steps : Nat) (gw : Gateway)
    (d : Deployment) (c0 : Container) (rest : List Container)
    (hE : gw.status = .NodePhaseError) (hv : validate gw = .ok ())
    (hget : env.deploymentGet gw.name = .ok d)
    (hcont : d.podSpec.containers = c0 :: rest)
    (hdu : ∀ x, env.deploymentUpdate x = .ok x)
    (hu : ∀ g, env.gatewayUpdate g = .ok g) :
    (operate env steps gw).trace =
      [.getDeployment gw.name,
       .updateDeployment { d with podSpec := { d.podSpec with
          containers := { c0 with image := gw.spec.image } :: rest } },
       .updateGateway { gw with status := .NodePhaseRunning }] ∧
    (operate env steps gw).ret = .ok () ∧
    (operate env steps gw).gw.status = .NodePhaseRunning ∧
    lastPersistedStatus (operate env steps gw).trace = some .NodePhaseRunning ∧
    ({ d with podSpec := { d.podSpec with
        containers := { c0 with image := gw.spec.image } :: rest } } : Deployment).name
        = d.name ∧
    ({ d with podSpec := { d.podSpec with
        containers := { c0 with image := gw.spec.image } :: rest } } : Deployment).namespace_
        = d.namespace_ ∧
    ({ d with podSpec := { d.podSpec with
        containers := { c0 with image := gw.spec.image } :: rest } } : Deployment).labels
        = d.labels ∧
    ({ d with podSpec := { d.podSpec with
        containers := { c0 with image := gw.spec.image } :: rest } } : Deployment).ownerGateway
        = d.ownerGateway ∧
    ({ d with podSpec := { d.podSpec with
        containers := { c0 with image := gw.spec.image } :: rest } } : Deployment).selectorMatchLabels
        = d.selectorMatchLabels ∧
    ({ d with podSpec := { d.podSpec with
        containers := { c0 with image := gw.spec.image } :: rest } } : Deployment).templateLabels
        = d.templateLabels ∧
    ({ d with podSpec := { d.podSpec with
        containers := { c0 with image := gw.spec.image } :: rest } } : Deployment).podSpec.serviceAccountName
        = d.podSpec.serviceAccountName ∧
    ({ d with podSpec := { d.podSpec with
        containers := { c0 with image := gw.spec.image } :: rest } } : Deployment).podSpec.containers.tail
        = rest ∧
    ({ c0 with image := gw.spec.image } : Container).name = c0.name ∧
    ({ c0 with image := gw.spec.image } : Container).imagePullPolicy = c0.imagePullPolicy ∧
    ({ c0 with image := gw.spec.image } : Container).env = c0.env ∧
    ({ c0 with image := gw.spec.image } : Container).image = gw.spec.image := by
  have hop : operate env steps gw =
      ⟨.ok (), { gw with status := .NodePhaseRunning },
        [.getDeployment gw.name,
         .updateDeployment { d with podSpec := { d.podSpec with
            containers := { c0 with image := gw.spec.image } :: rest } }]
        ++ [.updateGateway { gw with status := .NodePhaseRunning }]⟩ := by
    unfold operate
    rw [hv, hE]
    simp only
    rw [hget]
    simp only
    rw [hcont]
    simp only
    rw [hdu]
    exact persistGatewayStatus_echo env steps _ _ hu
  rw [hop]
  refine ⟨rfl, rfl, rfl, ?_, rfl, rfl, rfl, rfl, rfl, rfl, rfl, rfl, rfl, rfl,
    rfl, rfl⟩
  rw [show ([.getDeployment gw.name,
      .updateDeployment { d with podSpec := { d.podSpec with
        containers := { c0 with image := gw.spec.image } :: rest } }]
      ++ [.updateGateway { gw with status := .NodePhaseRunning }]
      : List RemoteOp)
    = [.getDeployment gw.name,
       .updateDeployment { d with podSpec := { d.podSpec with
          containers := { c0 with image := gw.spec.image } :: rest } }]
      ++ [.updateGateway { gw with status := .NodePhaseRunning }] from rfl,
    lastPersistedStatus_concat]

/-- C5 witness: the concrete repair pass on the errored sample gateway
returns ok, submits the fetched deployment with only the processor image
bumped, and ends Running. -/
theorem operate_error_repair_witness :
    (operate echoEnv 3 gwErrored).ret = .ok () ∧
    (operate echoEnv 3 gwErrored).gw.status = .NodePhaseRunning ∧
    lastPersistedStatus (operate echoEnv 3 gwErrored).trace = some .NodePhaseRunning := by
  have T := operate_error_repair echoEnv 3 gwErrored fetchedDeployment
    { name := "gateway-processor", imagePullPolicy := "Always",
      image := "argoproj/webhook-gateway:v0.4",
      env := [ { name := EnvVarNamespace, value := "argo-events" } ] }
    [ { name := "gateway-transformer", imagePullPolicy := "Always",
        image := GatewayEventTransformerImage,
        env := [ { name := EnvVarNamespace, value := "argo-events" } ] } ]
    rfl rfl rfl rfl (fun x => rfl) (fun g => rfl)
  exact ⟨T.2.1, T.2.2.1, T.2.2.2.1⟩

/-- C6 (evaluating the code at the failing input): the New-state path
creates the deployment under the derived deployment name, but the
Error-state repair path fetches the deployment under the raw gateway
name, which differs — the repair does not address the deployment the
engine created. -/
theorem operate_error_wrong_deployment_name :
    deploymentsCreatedNames (operate echoEnv 3 gwNew).trace
        = [DefaultGatewayDeploymentName "webhook"] ∧
    deploymentGetNames (operate echoEnv 3 gwErrored).trace = ["webhook"] ∧
    ¬ DefaultGatewayDeploymentName "webhook" = "webhook" := by
  exact ⟨by decide, by decide, by decide⟩

end ArgoEvents
